import Mathlib

/-!
Shallow embedding of `src/func_validacpf.py`, a Brazilian CPF validator
exposed through two Azure Function HTTP handlers.

Python dictionaries returned by `validar_cpf` are modelled as association
lists of string keys and `PyVal` values, so that the presence or absence of
a key is part of the model.  Python strings are Lean `String`s; slicing and
`len` in Python operate on characters, so they are modelled on `String.data`.
-/

set_option autoImplicit false

namespace ValidaCpf

/-- A JSON-serialisable Python value as it appears in the result dictionaries
of `validar_cpf`: `None`, a boolean, or a string. -/
inductive PyVal where
  | none : PyVal
  | bool : Bool → PyVal
  | str : String → PyVal
deriving DecidableEq

/-- A Python dict with string keys, modelled as an association list.
All dict literals in the source have pairwise distinct keys, so ordered
association-list lookup is a faithful model of Python dict access. -/
abbrev PyDict := List (String × PyVal)

/-- Dict lookup, `d[key]` returning `Option.none` when the key is absent
(Python `d.get(key)`). -/
def getKey : PyDict → String → Option PyVal
  | [], _ => Option.none
  | (k, v) :: rest, key => if k = key then Option.some v else getKey rest key

/-- Line 19, `re.sub(r'[^0-9]', '', cpf)`: remove every character that is not
a decimal digit.  `Char.isDigit` is exactly membership in `0`..`9`. -/
def stripNonDigits (s : String) : String :=
  String.mk (s.data.filter Char.isDigit)

/-- The digit values of a string of decimal digits: Python `int(cpf[i])`
applied position by position. -/
def digitsOf (s : String) : List Nat :=
  s.data.map (fun c => c.toNat - '0'.toNat)

/-- Lines 38-41: `soma = 0; for i in range(9): soma += int(cpf[i]) * (10 - i)`. -/
def soma1 (ds : List Nat) : Nat :=
  ((List.range 9).map (fun i => ds.getD i 0 * (10 - i))).sum

/-- Lines 42-43: `resto = soma % 11; digito1 = 0 if resto < 2 else 11 - resto`. -/
def digito1 (ds : List Nat) : Nat :=
  let resto := soma1 ds % 11
  if resto < 2 then 0 else 11 - resto

/-- Lines 53-55: `soma = 0; for i in range(10): soma += int(cpf[i]) * (11 - i)`. -/
def soma2 (ds : List Nat) : Nat :=
  ((List.range 10).map (fun i => ds.getD i 0 * (11 - i))).sum

/-- Lines 57-58: `resto = soma % 11; digito2 = 0 if resto < 2 else 11 - resto`. -/
def digito2 (ds : List Nat) : Nat :=
  let resto := soma2 ds % 11
  if resto < 2 then 0 else 11 - resto

/-- Line 68: `f"{cpf[:3]}.{cpf[3:6]}.{cpf[6:9]}-{cpf[9:]}"`.  Python string
slices act on characters, hence the model slices `String.data`. -/
def formatar (cpf : String) : String :=
  String.mk (cpf.data.take 3) ++ "." ++ String.mk ((cpf.data.drop 3).take 3) ++ "."
    ++ String.mk ((cpf.data.drop 6).take 3) ++ "-" ++ String.mk (cpf.data.drop 9)

/-- Lines 22-75 of `validar_cpf`, after the reassignment `cpf = re.sub(...)`:
the length guard, repeated-digit guard, the two check-digit guards, and the
success dictionary.  `cpf == cpf[0] * 11` compares `cpf` with its first
character repeated 11 times (reached only when `len(cpf) == 11`, so `cpf[0]`
is defined; `List.headD` supplies an irrelevant default). -/
def validar_core (cpf : String) : PyDict :=
  if cpf.length ≠ 11 then
    [("valido", PyVal.bool false),
     ("erro", PyVal.str "CPF deve conter 11 dígitos"),
     ("cpf_formatado", PyVal.none)]
  else if cpf = String.mk (List.replicate 11 (cpf.data.headD '0')) then
    [("valido", PyVal.bool false),
     ("erro", PyVal.str "CPF não pode ter todos os dígitos iguais"),
     ("cpf_formatado", PyVal.none)]
  else if digito1 (digitsOf cpf) ≠ (digitsOf cpf).getD 9 0 then
    [("valido", PyVal.bool false),
     ("erro", PyVal.str "Primeiro dígito verificador inválido"),
     ("cpf_formatado", PyVal.none)]
  else if digito2 (digitsOf cpf) ≠ (digitsOf cpf).getD 10 0 then
    [("valido", PyVal.bool false),
     ("erro", PyVal.str "Segundo dígito verificador inválido"),
     ("cpf_formatado", PyVal.none)]
  else
    [("valido", PyVal.bool true),
     ("erro", PyVal.none),
     ("cpf_formatado", PyVal.str (formatar cpf)),
     ("cpf_apenas_numeros", PyVal.str cpf)]

/-- Lines 7-75, `validar_cpf`: strip the non-digits, then run the guards. -/
def validar_cpf (cpf : String) : PyDict :=
  validar_core (stripNonDigits cpf)

/-! ### Spec-side check-digit formulas

These restate the check digits exactly as the specification words them:
"weighted sum of digits[0..8] with weights 10 down to 2" and
"weighted sum of digits[0..9] with weights 11 down to 2", with the shared
remainder rule.  They are compared with the loop-based `digito1`/`digito2`
from the source. -/

/-- First check digit as the spec words it. -/
def check1Spec (ds : List Nat) : Nat :=
  let resto := (ds.getD 0 0 * 10 + ds.getD 1 0 * 9 + ds.getD 2 0 * 8 +
    ds.getD 3 0 * 7 + ds.getD 4 0 * 6 + ds.getD 5 0 * 5 + ds.getD 6 0 * 4 +
    ds.getD 7 0 * 3 + ds.getD 8 0 * 2) % 11
  if resto < 2 then 0 else 11 - resto

/-- Second check digit as the spec words it. -/
def check2Spec (ds : List Nat) : Nat :=
  let resto := (ds.getD 0 0 * 11 + ds.getD 1 0 * 10 + ds.getD 2 0 * 9 +
    ds.getD 3 0 * 8 + ds.getD 4 0 * 7 + ds.getD 5 0 * 6 + ds.getD 6 0 * 5 +
    ds.getD 7 0 * 4 + ds.getD 8 0 * 3 + ds.getD 9 0 * 2) % 11
  if resto < 2 then 0 else 11 - resto

/-! ### The HTTP layer and Python error behaviour

The source imports only `azure.functions`, `logging` and `re` (lines 1-3);
the name `json` used at lines 101 and 142 is never bound, so evaluating
`json.dumps(resultado)` raises `NameError`.  Calling `re.sub` with a
non-string subject raises `TypeError`.  Both exceptions are modelled
explicitly. -/

/-- A Python exception relevant to this source file. -/
inductive PyError where
  | typeError : PyError
  | nameError : PyError
deriving DecidableEq

/-- Calling `validar_cpf` with an argument that may not be a string
(`Option.none` stands for any non-string value).  Line 19 runs
`re.sub(r'[^0-9]', '', cpf)` first, and `re.sub` raises
`TypeError: expected string or bytes-like object` on a non-string subject,
before any result dictionary can be built. -/
def validar_cpf_call : Option String → Except PyError PyDict
  | Option.some s => Except.ok (validar_cpf s)
  | Option.none => Except.error PyError.typeError

/-- An `azure.functions.HttpResponse`: its body and status code. -/
structure HttpResponse where
  body : String
  status_code : Nat
deriving DecidableEq

/-- The POST request body as `validar_cpf_http` sees it: `malformed` when
`req.get_json()` raises `ValueError`, otherwise the parsed object's
`cpf` field (`Option.none` when the field is absent, in which case
`req_body.get('cpf')` yields Python `None`). -/
inductive PostBody where
  | malformed : PostBody
  | parsed : Option String → PostBody

/-- Lines 79-118, `validar_cpf_http`.  A missing or empty `cpf` is falsy
(`if not cpf`, line 90) and yields the 400 response of lines 91-95.
Otherwise line 98 computes `validar_cpf(cpf)` and line 101 evaluates
`json.dumps(resultado)`, which raises `NameError` because `json` was never
imported; the generic `except Exception` handler of lines 112-118 turns
that into the 500 response.  A `ValueError` from `req.get_json()` is
caught at lines 106-111. -/
def validar_cpf_http (body : PostBody) : HttpResponse :=
  match body with
  | PostBody.malformed =>
      HttpResponse.mk "\x7b\"erro\": \"Corpo da requisição inválido\"\x7d" 400
  | PostBody.parsed cpfOpt =>
      match cpfOpt with
      | Option.none =>
          HttpResponse.mk
            "\x7b\"erro\": \"CPF não fornecido no corpo da requisição\"\x7d" 400
      | Option.some cpf =>
          if cpf = "" then
            HttpResponse.mk
              "\x7b\"erro\": \"CPF não fornecido no corpo da requisição\"\x7d" 400
          else
            let _resultado := validar_cpf cpf
            HttpResponse.mk "\x7b\"erro\": \"Erro interno do servidor\"\x7d" 500

/-- Lines 123-145, `validar_cpf_get`.  The input is `req.params.get('cpf')`
(`Option.none` when the query parameter is absent).  A missing or empty
`cpf` is falsy and yields the 400 response of lines 132-136.  Otherwise
line 139 computes `validar_cpf(cpf)` and line 142 evaluates
`json.dumps(resultado)`, raising `NameError`; this handler has no
`try`/`except`, so the exception escapes the function. -/
def validar_cpf_get (cpf : Option String) : Except PyError HttpResponse :=
  match cpf with
  | Option.none =>
      Except.ok (HttpResponse.mk
        "\x7b\"erro\": \"Parâmetro CPF não fornecido. Use ?cpf=12345678901\"\x7d" 400)
  | Option.some s =>
      if s = "" then
        Except.ok (HttpResponse.mk
          "\x7b\"erro\": \"Parâmetro CPF não fornecido. Use ?cpf=12345678901\"\x7d" 400)
      else
        let _resultado := validar_cpf s
        Except.error PyError.nameError

/-! ### Basic lemmas about the embedded operations -/

theorem mk_data (l : List Char) : (String.mk l).data = l := rfl

theorem mk_length (l : List Char) : (String.mk l).length = l.length := rfl

/-- Stripping non-digits is idempotent: the output contains only digits. -/
theorem stripNonDigits_idem (s : String) :
    stripNonDigits (stripNonDigits s) = stripNonDigits s := by
  simp [stripNonDigits, List.filter_filter]

/-- The repeated-digit guard of line 30, under the length guard of line 22,
holds exactly when every character of `cpf` equals the first one. -/
theorem repeated_guard_iff (cpf : String) (h : cpf.length = 11) :
    cpf = String.mk (List.replicate 11 (cpf.data.headD '0')) ↔
      ∀ c ∈ cpf.data, c = cpf.data.headD '0' := by
  constructor
  · intro he c hc
    have hd : cpf.data = List.replicate 11 (cpf.data.headD '0') := by
      conv_lhs => rw [he]
    have : c ∈ List.replicate 11 (cpf.data.headD '0') := hd ▸ hc
    exact List.eq_of_mem_replicate this
  · intro hall
    have h11 : cpf.data.length = 11 := h
    have hd : cpf.data = List.replicate 11 (cpf.data.headD '0') :=
      List.eq_replicate_iff.mpr ⟨h11, hall⟩
    conv_lhs => rw [show cpf = String.mk cpf.data from rfl, hd]

/-- The loop of lines 38-41 written out with the spec's weights 10 down to 2. -/
theorem soma1_eval (ds : List Nat) :
    soma1 ds = ds.getD 0 0 * 10 + ds.getD 1 0 * 9 + ds.getD 2 0 * 8 +
      ds.getD 3 0 * 7 + ds.getD 4 0 * 6 + ds.getD 5 0 * 5 + ds.getD 6 0 * 4 +
      ds.getD 7 0 * 3 + ds.getD 8 0 * 2 := by
  have hr : List.range 9 = [0, 1, 2, 3, 4, 5, 6, 7, 8] := rfl
  simp [soma1, hr]
  omega

/-- The loop of lines 53-55 written out with the spec's weights 11 down to 2. -/
theorem soma2_eval (ds : List Nat) :
    soma2 ds = ds.getD 0 0 * 11 + ds.getD 1 0 * 10 + ds.getD 2 0 * 9 +
      ds.getD 3 0 * 8 + ds.getD 4 0 * 7 + ds.getD 5 0 * 6 + ds.getD 6 0 * 5 +
      ds.getD 7 0 * 4 + ds.getD 8 0 * 3 + ds.getD 9 0 * 2 := by
  have hr : List.range 10 = [0, 1, 2, 3, 4, 5, 6, 7, 8, 9] := rfl
  simp [soma2, hr]
  omega

/-- The loop-based first check digit of the source agrees with the spec's
weighted-sum formula. -/
theorem digito1_eq_check1Spec (ds : List Nat) : digito1 ds = check1Spec ds := by
  unfold digito1 check1Spec
  rw [soma1_eval]

/-- The loop-based second check digit of the source agrees with the spec's
weighted-sum formula. -/
theorem digito2_eq_check2Spec (ds : List Nat) : digito2 ds = check2Spec ds := by
  unfold digito2 check2Spec
  rw [soma2_eval]

/-! ### Branch lemmas for `validar_core` -/

theorem validar_core_wrong_length (cpf : String) (h : cpf.length ≠ 11) :
    validar_core cpf =
      [("valido", PyVal.bool false),
       ("erro", PyVal.str "CPF deve conter 11 dígitos"),
       ("cpf_formatado", PyVal.none)] := by
  unfold validar_core
  rw [if_pos h]

theorem validar_core_repeated (cpf : String) (h1 : cpf.length = 11)
    (h2 : cpf = String.mk (List.replicate 11 (cpf.data.headD '0'))) :
    validar_core cpf =
      [("valido", PyVal.bool false),
       ("erro", PyVal.str "CPF não pode ter todos os dígitos iguais"),
       ("cpf_formatado", PyVal.none)] := by
  unfold validar_core
  rw [if_neg (fun hn => hn h1), if_pos h2]

theorem validar_core_first_fail (cpf : String) (h1 : cpf.length = 11)
    (h2 : cpf ≠ String.mk (List.replicate 11 (cpf.data.headD '0')))
    (h3 : digito1 (digitsOf cpf) ≠ (digitsOf cpf).getD 9 0) :
    validar_core cpf =
      [("valido", PyVal.bool false),
       ("erro", PyVal.str "Primeiro dígito verificador inválido"),
       ("cpf_formatado", PyVal.none)] := by
  unfold validar_core
  rw [if_neg (fun hn => hn h1), if_neg h2, if_pos h3]

theorem validar_core_second_fail (cpf : String) (h1 : cpf.length = 11)
    (h2 : cpf ≠ String.mk (List.replicate 11 (cpf.data.headD '0')))
    (h3 : digito1 (digitsOf cpf) = (digitsOf cpf).getD 9 0)
    (h4 : digito2 (digitsOf cpf) ≠ (digitsOf cpf).getD 10 0) :
    validar_core cpf =
      [("valido", PyVal.bool false),
       ("erro", PyVal.str "Segundo dígito verificador inválido"),
       ("cpf_formatado", PyVal.none)] := by
  unfold validar_core
  rw [if_neg (fun hn => hn h1), if_neg h2, if_neg (fun hn => hn h3), if_pos h4]

theorem validar_core_success (cpf : String) (h1 : cpf.length = 11)
    (h2 : cpf ≠ String.mk (List.replicate 11 (cpf.data.headD '0')))
    (h3 : digito1 (digitsOf cpf) = (digitsOf cpf).getD 9 0)
    (h4 : digito2 (digitsOf cpf) = (digitsOf cpf).getD 10 0) :
    validar_core cpf =
      [("valido", PyVal.bool true),
       ("erro", PyVal.none),
       ("cpf_formatado", PyVal.str (formatar cpf)),
       ("cpf_apenas_numeros", PyVal.str cpf)] := by
  unfold validar_core
  rw [if_neg (fun hn => hn h1), if_neg h2, if_neg (fun hn => hn h3),
    if_neg (fun hn => hn h4)]

end ValidaCpf

namespace ValidaCpf

/-- Claim C1: for every input string whose digit-stripped form has exactly 11
digits that are not all identical, `validar_cpf` computes the first check
digit as the weighted sum of digits 0..8 with weights 10 down to 2 taken
mod 11 (0 when the remainder is below 2, else 11 minus it) and the second
check digit likewise over digits 0..9 with weights 11 down to 2; a first
mismatch yields the first-check-digit failure dictionary, and otherwise a
second mismatch yields the second-check-digit failure dictionary. -/
theorem validar_cpf_check_digit_mismatch (s : String)
    (hlen : (stripNonDigits s).length = 11)
    (hrep : ¬ ∀ c ∈ (stripNonDigits s).data, c = (stripNonDigits s).data.headD '0') :
    (check1Spec (digitsOf (stripNonDigits s)) ≠ (digitsOf (stripNonDigits s)).getD 9 0 →
      validar_cpf s =
        [("valido", PyVal.bool false),
         ("erro", PyVal.str "Primeiro dígito verificador inválido"),
         ("cpf_formatado", PyVal.none)]) ∧
    (check1Spec (digitsOf (stripNonDigits s)) = (digitsOf (stripNonDigits s)).getD 9 0 →
      check2Spec (digitsOf (stripNonDigits s)) ≠ (digitsOf (stripNonDigits s)).getD 10 0 →
      validar_cpf s =
        [("valido", PyVal.bool false),
         ("erro", PyVal.str "Segundo dígito verificador inválido"),
         ("cpf_formatado", PyVal.none)]) := by
  have hrep' : stripNonDigits s ≠
      String.mk (List.replicate 11 ((stripNonDigits s).data.headD '0')) :=
    fun he => hrep ((repeated_guard_iff _ hlen).mp he)
  constructor
  · intro hmis
    exact validar_core_first_fail _ hlen hrep'
      (by rw [digito1_eq_check1Spec]; exact hmis)
  · intro h1 hmis
    exact validar_core_second_fail _ hlen hrep'
      (by rw [digito1_eq_check1Spec]; exact h1)
      (by rw [digito2_eq_check2Spec]; exact hmis)

/-- Witness for claim C1 at the concrete input "11144477745", whose first
check digit (3) differs from its tenth digit (4). -/
theorem validar_cpf_check_digit_mismatch_witness :
    validar_cpf "11144477745" =
      [("valido", PyVal.bool false),
       ("erro", PyVal.str "Primeiro dígito verificador inválido"),
       ("cpf_formatado", PyVal.none)] :=
  (validar_cpf_check_digit_mismatch "11144477745" (by decide) (by decide)).1 (by decide)

/-- Claim C2: for every input string whose digit-stripped form does not have
exactly 11 digits, `validar_cpf` fails with the wrong-length reason. -/
theorem validar_cpf_wrong_length (s : String)
    (h : (stripNonDigits s).length ≠ 11) :
    validar_cpf s =
      [("valido", PyVal.bool false),
       ("erro", PyVal.str "CPF deve conter 11 dígitos"),
       ("cpf_formatado", PyVal.none)] :=
  validar_core_wrong_length _ h

/-- Witness for claim C2 at the concrete input "123". -/
theorem validar_cpf_wrong_length_witness :
    validar_cpf "123" =
      [("valido", PyVal.bool false),
       ("erro", PyVal.str "CPF deve conter 11 dígitos"),
       ("cpf_formatado", PyVal.none)] :=
  validar_cpf_wrong_length "123" (by decide)

/-- Claim C3: for every input string whose digit-stripped form is 11 copies
of one and the same digit, `validar_cpf` fails with the repeated-digit
reason. -/
theorem validar_cpf_repeated_digits (s : String) (c : Char)
    ( _hc : c.isDigit = true)
    (hs : stripNonDigits s = String.mk (List.replicate 11 c)) :
    validar_cpf s =
      [("valido", PyVal.bool false),
       ("erro", PyVal.str "CPF não pode ter todos os dígitos iguais"),
       ("cpf_formatado", PyVal.none)] := by
  have hlen : (stripNonDigits s).length = 11 := by rw [hs]; rfl
  have hhead : (stripNonDigits s).data.headD '0' = c := by rw [hs]; rfl
  exact validar_core_repeated _ hlen (by rw [hhead, hs])

/-- Witness for claim C3 at the concrete input "11111111111". -/
theorem validar_cpf_repeated_digits_witness :
    validar_cpf "11111111111" =
      [("valido", PyVal.bool false),
       ("erro", PyVal.str "CPF não pode ter todos os dígitos iguais"),
       ("cpf_formatado", PyVal.none)] :=
  validar_cpf_repeated_digits "11111111111" '1' (by decide) (by decide)

/-- Claim C4: when every check passes, `validar_cpf` returns valid with the
digits formatted as DDD.DDD.DDD-DD together with the digits-only string;
concretely "11144477735" is valid with formatted value "111.444.777-35",
while "11144477736" fails with the second-check-digit reason. -/
theorem validar_cpf_success_and_examples (s : String)
    (hlen : (stripNonDigits s).length = 11)
    (hrep : ¬ ∀ c ∈ (stripNonDigits s).data, c = (stripNonDigits s).data.headD '0')
    (hd1 : check1Spec (digitsOf (stripNonDigits s)) =
      (digitsOf (stripNonDigits s)).getD 9 0)
    (hd2 : check2Spec (digitsOf (stripNonDigits s)) =
      (digitsOf (stripNonDigits s)).getD 10 0) :
    validar_cpf s =
      [("valido", PyVal.bool true),
       ("erro", PyVal.none),
       ("cpf_formatado", PyVal.str (formatar (stripNonDigits s))),
       ("cpf_apenas_numeros", PyVal.str (stripNonDigits s))] ∧
    validar_cpf "11144477735" =
      [("valido", PyVal.bool true),
       ("erro", PyVal.none),
       ("cpf_formatado", PyVal.str "111.444.777-35"),
       ("cpf_apenas_numeros", PyVal.str "11144477735")] ∧
    validar_cpf "11144477736" =
      [("valido", PyVal.bool false),
       ("erro", PyVal.str "Segundo dígito verificador inválido"),
       ("cpf_formatado", PyVal.none)] := by
  refine ⟨?_, by decide, by decide⟩
  have hrep' : stripNonDigits s ≠
      String.mk (List.replicate 11 ((stripNonDigits s).data.headD '0')) :=
    fun he => hrep ((repeated_guard_iff _ hlen).mp he)
  exact validar_core_success _ hlen hrep'
    (by rw [digito1_eq_check1Spec]; exact hd1)
    (by rw [digito2_eq_check2Spec]; exact hd2)

/-- Witness for claim C4 at the concrete input "11144477735", which passes
every check. -/
theorem validar_cpf_success_and_examples_witness :
    validar_cpf "11144477735" =
      [("valido", PyVal.bool true),
       ("erro", PyVal.none),
       ("cpf_formatado", PyVal.str (formatar (stripNonDigits "11144477735"))),
       ("cpf_apenas_numeros", PyVal.str (stripNonDigits "11144477735"))] :=
  (validar_cpf_success_and_examples "11144477735"
    (by decide) (by decide) (by decide) (by decide)).1

/-- Claim C5: `validar_cpf` of any string equals `validar_cpf` of its
digit-stripped form; in particular "111.444.777-35" and "11144477735"
validate identically. -/
theorem validar_cpf_strip_invariant :
    (∀ s : String, validar_cpf s = validar_cpf (stripNonDigits s)) ∧
    validar_cpf "111.444.777-35" = validar_cpf "11144477735" := by
  constructor
  · intro s
    unfold validar_cpf
    rw [stripNonDigits_idem]
  · decide

/-- Claim C6: validation is idempotent: when `validar_cpf s` is valid with
digits-only string `d`, validating `d` again returns the very same
result dictionary. -/
theorem validar_cpf_idempotent (s d : String)
    ( _hv : getKey (validar_cpf s) "valido" = Option.some (PyVal.bool true))
    (hd : getKey (validar_cpf s) "cpf_apenas_numeros" = Option.some (PyVal.str d)) :
    validar_cpf d = validar_cpf s := by
  have hds : d = stripNonDigits s := by
    unfold validar_cpf validar_core at hd
    split_ifs at hd
    · simp [getKey] at hd
    · simp [getKey] at hd
    · simp [getKey] at hd
    · simp [getKey] at hd
    · simp [getKey] at hd
      exact hd.symm
  subst hds
  unfold validar_cpf
  rw [stripNonDigits_idem]

/-- Witness for claim C6 at the concrete input "11144477735", a valid CPF
whose digits-only field is itself. -/
theorem validar_cpf_idempotent_witness :
    validar_cpf "11144477735" = validar_cpf "11144477735" :=
  validar_cpf_idempotent "11144477735" "11144477735" (by decide) (by decide)

/-- Counterexample to claim C7: calling `validar_cpf` with a non-string
argument raises `TypeError` from `re.sub` instead of returning a result
dictionary with an invalid-input reason. -/
theorem validar_cpf_nonstring_raises :
    validar_cpf_call Option.none = Except.error PyError.typeError := rfl

/-- Claim C7 as amended: for every string input `validar_cpf` returns its
result as data (a dictionary that always carries the `valido` and `erro`
keys) and never raises, while a non-string argument makes the call raise
`TypeError`; no invalid-input reason exists in the code. -/
theorem validar_cpf_string_total (s : String) :
    validar_cpf_call (Option.some s) = Except.ok (validar_cpf s) ∧
    (∃ b, getKey (validar_cpf s) "valido" = Option.some (PyVal.bool b)) ∧
    (∃ e, getKey (validar_cpf s) "erro" = Option.some e) := by
  refine ⟨rfl, ?_, ?_⟩
  · unfold validar_cpf validar_core
    split_ifs <;> exact ⟨_, rfl⟩
  · unfold validar_cpf validar_core
    split_ifs <;> exact ⟨_, rfl⟩

/-- Claim C8 failing-input evaluation: with the valid CPF "11144477735"
present, the POST handler responds 500 with the internal-error body and the
GET handler lets `NameError` escape, because `json` is never imported and
`json.dumps` is evaluated before the response can be built — even though
`validar_cpf` itself judged the CPF valid. -/
theorem validar_cpf_http_import_bug :
    validar_cpf_http (PostBody.parsed (Option.some "11144477735")) =
      HttpResponse.mk "\x7b\"erro\": \"Erro interno do servidor\"\x7d" 500 ∧
    validar_cpf_get (Option.some "11144477735") = Except.error PyError.nameError ∧
    getKey (validar_cpf "11144477735") "valido" = Option.some (PyVal.bool true) :=
  ⟨rfl, rfl, by decide⟩

/-- Claim C9: a POST body without the `cpf` field and a GET request without
the `cpf` query parameter each receive status 400 with the missing-input
error body, returned before the checksum logic is ever reached. -/
theorem validar_cpf_http_missing_cpf :
    validar_cpf_http (PostBody.parsed Option.none) =
      HttpResponse.mk
        "\x7b\"erro\": \"CPF não fornecido no corpo da requisição\"\x7d" 400 ∧
    validar_cpf_get Option.none =
      Except.ok (HttpResponse.mk
        "\x7b\"erro\": \"Parâmetro CPF não fornecido. Use ?cpf=12345678901\"\x7d" 400) :=
  ⟨rfl, rfl⟩

/-- Claim C10: every failure result of `validar_cpf` is exactly the
three-key dictionary with `valido` false, a non-null `erro` message and a
null `cpf_formatado`, omitting `cpf_apenas_numeros`; every success result
carries all four keys with `erro` null; hence the digits-only key is
present exactly when the result is valid. -/
theorem validar_cpf_result_shape (s : String) :
    ((∃ msg, validar_cpf s =
        [("valido", PyVal.bool false), ("erro", PyVal.str msg),
         ("cpf_formatado", PyVal.none)]) ∨
      (∃ f d, validar_cpf s =
        [("valido", PyVal.bool true), ("erro", PyVal.none),
         ("cpf_formatado", PyVal.str f), ("cpf_apenas_numeros", PyVal.str d)])) ∧
    ((getKey (validar_cpf s) "cpf_apenas_numeros").isSome = true ↔
      getKey (validar_cpf s) "valido" = Option.some (PyVal.bool true)) := by
  unfold validar_cpf validar_core
  split_ifs
  · exact ⟨Or.inl ⟨_, rfl⟩, by decide⟩
  · exact ⟨Or.inl ⟨_, rfl⟩, by decide⟩
  · exact ⟨Or.inl ⟨_, rfl⟩, by decide⟩
  · exact ⟨Or.inl ⟨_, rfl⟩, by decide⟩
  · exact ⟨Or.inr ⟨_, _, rfl⟩, ⟨fun _ => rfl, fun _ => rfl⟩⟩

end ValidaCpf
